import Mathlib

/-!
Shallow embedding of the notification subsystem of the todo-go-backend
repository: the reminder classification in
`internal/notifications/service.go` (`CheckAndSendNotifications`,
`sendNotification`), the dispatch log in
`internal/repositories/notification_repository.go` (`Create`, `Exists`),
the two channel senders (`internal/notifications/email.go`,
`internal/notifications/telegram.go`) and the scheduler glue
(`internal/notifications/scheduler.go`).

Time is modelled as an integer number of seconds on the server-local
timeline; a calendar day is a block of 86400 seconds, so truncating a
time to midnight is flooring division by 86400 (`Int.ediv`, which floors
for a positive divisor), exactly as Go's
`time.Date(t.Year(), t.Month(), t.Day(), 0,0,0,0, t.Location())`
truncates to the day boundary of the local timeline.

External effects (database errors, SMTP/Telegram call outcomes, the
clock) are supplied by an `Env` of oracles; the database of dispatch
records is an explicit `List Notification` threaded through the engine.
-/

namespace Todo

/-- Embeds `models.NotificationType` (`internal/models/notification.go`). -/
inductive NotificationType where
  | due_soon
  | due_today
  | overdue
deriving DecidableEq, Repr

/-- Embeds `models.NotificationChannel` (`internal/models/notification.go`). -/
inductive NotificationChannel where
  | email
  | telegram
deriving DecidableEq, Repr

/-- Embeds `models.Notification`: one dispatch record (id/audit columns omitted;
they are not read by the subsystem). -/
structure Notification where
  userID : Nat
  taskID : Nat
  type : NotificationType
  channel : NotificationChannel
  sentAt : Int
deriving DecidableEq, Repr

/-- Embeds `models.User`, the fields the notification subsystem reads. -/
structure User where
  id : Nat
  email : String
  telegramChatID : Option String
  notificationsEnabled : Bool
deriving DecidableEq, Repr

/-- Embeds `models.Task`, the fields the notification subsystem reads; `user` is
the preloaded owning user. -/
structure Task where
  id : Nat
  title : String
  description : String
  priority : String
  dueDate : Option Int
  completed : Bool
  userID : Nat
  user : User
deriving DecidableEq, Repr

/-- Midnight truncation: the calendar day (as a day number) a time falls
in. `Int.ediv` floors for the positive divisor 86400. -/
def dayOf (t : Int) : Int := Int.ediv t 86400

/-- Embeds `time.Date(t.Year(), t.Month(), t.Day(), 0,0,0,0, t.Location())`:
the midnight starting the day `t` falls in. -/
def startOfDay (t : Int) : Int := dayOf t * 86400

/-- Embeds `startOfDay.Add(24 * time.Hour)` in `notification_repository.go`. -/
def endOfDay (t : Int) : Int := startOfDay t + 86400

/-- One record matches the query key of `notificationRepository.Exists`:
same user, task, type and channel, and `sent_at BETWEEN startOfDay AND
endOfDay` — SQL `BETWEEN` is inclusive at both ends. -/
def recordMatches (u t : Nat) (ty : NotificationType) (ch : NotificationChannel)
    (date : Int) (r : Notification) : Bool :=
  decide (r.userID = u) && decide (r.taskID = t) && decide (r.type = ty) &&
  decide (r.channel = ch) &&
  decide (startOfDay date ≤ r.sentAt) && decide (r.sentAt ≤ endOfDay date)

/-- Embeds `notificationRepository.Exists` (`notification_repository.go`): the
count of matching rows is positive. -/
def repoExists (db : List Notification) (u t : Nat) (ty : NotificationType)
    (ch : NotificationChannel) (date : Int) : Bool :=
  db.any (recordMatches u t ty ch date)

/-- The spec's words for `WasSent` (§4.2): a record for the exact key
whose timestamp falls within the calendar day — from the day's midnight
up to but NOT including the next midnight. Kept beside `repoExists` to
compare the two right endpoints. -/
def wasSentSpec (db : List Notification) (u t : Nat) (ty : NotificationType)
    (ch : NotificationChannel) (date : Int) : Bool :=
  db.any fun r =>
    decide (r.userID = u) && decide (r.taskID = t) && decide (r.type = ty) &&
    decide (r.channel = ch) &&
    decide (startOfDay date ≤ r.sentAt) && decide (r.sentAt < endOfDay date)

/-- External outcomes one engine run observes: persistence failures of
`Exists` and `Create` per key, the success of each channel sender per
(task, type), the clock, and whether the task-set load fails. -/
structure Env where
  existsErr : Nat → Nat → NotificationType → NotificationChannel → Bool
  createErr : Nat → Nat → NotificationType → NotificationChannel → Bool
  emailOk : Nat → NotificationType → Bool
  telegramOk : Nat → NotificationType → Bool
  now : Int
  fetchErr : Bool

/-- One channel branch of `NotificationService.sendNotification`
(`service.go` lines 110-141 for email, 147-178 for telegram): check
`Exists`; on a persistence error only log; if already sent, skip;
otherwise invoke the sender (outcome `ok`); on success build the record
with `SentAt = time.Now()` and `Create` it — a `Create` error is logged
and the record is simply not persisted. Returns the new database and
whether the sender reported success. -/
def trySendChannel (env : Env) (db : List Notification) (task : Task)
    (ty : NotificationType) (ch : NotificationChannel) (date : Int)
    (ok : Bool) : List Notification × Bool :=
  if env.existsErr task.userID task.id ty ch then (db, false)
  else if repoExists db task.userID task.id ty ch date then (db, false)
  else if ok then
    if env.createErr task.userID task.id ty ch then (db, true)
    else (db ++ [{ userID := task.userID, taskID := task.id, type := ty,
                   channel := ch, sentAt := env.now }], true)
  else (db, false)

/-- Email block of `NotificationService.sendNotification` (`service.go`
lines 110-144): runs only when the user's email is non-empty. -/
def emailPhase (env : Env) (db : List Notification) (task : Task)
    (ty : NotificationType) (date : Int) : List Notification :=
  if task.user.email ≠ "" then
    (trySendChannel env db task ty .email date (env.emailOk task.id ty)).1
  else db

/-- Telegram block of `NotificationService.sendNotification`
(`service.go` lines 147-181): runs only when the chat id is present and
non-empty. -/
def telegramPhase (env : Env) (db : List Notification) (task : Task)
    (ty : NotificationType) (date : Int) : List Notification :=
  match task.user.telegramChatID with
  | some c =>
      if c ≠ "" then
        (trySendChannel env db task ty .telegram date (env.telegramOk task.id ty)).1
      else db
  | none => db

/-- Embeds `NotificationService.sendNotification` (`service.go`): the email
block first, then — whatever the email block did — the telegram block. -/
def sendNotification (env : Env) (db : List Notification) (task : Task)
    (ty : NotificationType) (date : Int) : List Notification :=
  telegramPhase env (emailPhase env db task ty date) task ty date

/-- The classification chain of `CheckAndSendNotifications` (`service.go`
lines 83-97), on day numbers: `dueDate.Before(today) → Overdue`,
`dueDate.Equal(today) → DueToday`, `dueDate.Equal(tomorrow) → DueSoon`
with `tomorrow = today.Add(24h)`, otherwise no notification. -/
def classify (dueDay today : Int) : Option NotificationType :=
  if dueDay < today then some .overdue
  else if dueDay = today then some .due_today
  else if dueDay = today + 1 then some .due_soon
  else none

/-- The counters `CheckAndSendNotifications` accumulates and writes to
the log, together with the dispatch-record database after the run. The
Go function itself returns only `error`; these counters are observable
only through the operational log. -/
structure RunResult where
  db : List Notification
  processed : Nat
  skipped : Nat
  notifications : Nat
deriving DecidableEq, Repr

/-- The loop body of `CheckAndSendNotifications` (`service.go` lines
62-99): skip (counting `skippedCount`) on a nil due date or a user with
notifications disabled; otherwise classify and, when a category applies,
call `sendNotification` and count `notificationCount`; `processedCount`
increments for every non-skipped task. -/
def processTask (env : Env) (todayTime : Int) (acc : RunResult) (task : Task) :
    RunResult :=
  match task.dueDate with
  | none => { acc with skipped := acc.skipped + 1 }
  | some due =>
    if task.user.notificationsEnabled = false then
      { acc with skipped := acc.skipped + 1 }
    else
      let acc1 :=
        match classify (dayOf due) (dayOf todayTime) with
        | some ty =>
            { acc with db := sendNotification env acc.db task ty todayTime,
                       notifications := acc.notifications + 1 }
        | none => acc
      { acc1 with processed := acc1.processed + 1 }

/-- The task loop, in the order the load step returned the tasks. -/
def runTasks (env : Env) (todayTime : Int) (acc : RunResult) :
    List Task → RunResult
  | [] => acc
  | t :: ts => runTasks env todayTime (processTask env todayTime acc t) ts

/-- Embeds `NotificationService.CheckAndSendNotifications` (`service.go`): load
the tasks with `completed = false AND due_date IS NOT NULL` (a failure
aborts the cycle and returns the error); compute `today` as the midnight
of `now`; run the loop. The Go function returns only `error`; the
`RunResult` carries the final database and the logged counters. -/
def checkAndSend (env : Env) (tasks : List Task) (db : List Notification) :
    Except Unit RunResult :=
  if env.fetchErr then .error ()
  else
    .ok (runTasks env (startOfDay env.now)
      { db := db, processed := 0, skipped := 0, notifications := 0 }
      (tasks.filter fun t => !t.completed && t.dueDate.isSome))

/-- Embeds `EmailService` (`email.go`): SMTP settings. `from` is a Lean keyword,
hence `fromAddr`. -/
structure EmailService where
  host : String
  port : String
  user : String
  password : String
  fromAddr : String
deriving DecidableEq, Repr

/-- Outcome of `EmailService.SendNotification` up to the external
`smtp.SendMail` call: either the configuration error returned before any
connection, or the delivery attempt with the address `host:port`, the
envelope sender, the recipient and the message handed to SMTP. -/
inductive EmailResult where
  | configError (msg : String)
  | attempt (addr fromA dest msg : String)
deriving DecidableEq, Repr

/-- Whether an `EmailResult` is the fail-fast configuration error. -/
def EmailResult.isConfigError : EmailResult → Bool
  | .configError _ => true
  | .attempt _ _ _ _ => false

/-- The envelope sender of a delivery attempt, if one was made. -/
def EmailResult.fromOf : EmailResult → Option String
  | .configError _ => none
  | .attempt _ f _ _ => some f

/-- The recipient of a delivery attempt, if one was made. -/
def EmailResult.destOf : EmailResult → Option String
  | .configError _ => none
  | .attempt _ _ d _ => some d

/-- Embeds `EmailService.buildEmailContent` (`email.go`): subject and body per
notification type; the body interpolates title, description, priority and
the formatted due date (the date string is abstracted by `dueStr`, the
`task.DueDate.Format("02/01/2006")` rendering). -/
def buildEmailContent (task : Task) (ty : NotificationType) (dueStr : String) :
    String × String :=
  match ty with
  | .due_soon =>
      ("⏰ Tarefa vence amanhã: " ++ task.title,
       "<h2>Tarefa vence amanhã!</h2><p><strong>" ++ task.title ++
       "</strong></p><p>" ++ task.description ++
       "</p><p><strong>Prioridade:</strong> " ++ task.priority ++
       "</p><p><strong>Data de vencimento:</strong> " ++ dueStr ++ "</p>")
  | .due_today =>
      ("📅 Tarefa vence hoje: " ++ task.title,
       "<h2>Tarefa vence hoje!</h2><p><strong>" ++ task.title ++
       "</strong></p><p>" ++ task.description ++
       "</p><p><strong>Prioridade:</strong> " ++ task.priority ++
       "</p><p><strong>Data de vencimento:</strong> " ++ dueStr ++ "</p>")
  | .overdue =>
      ("⚠️ Tarefa atrasada: " ++ task.title,
       "<h2>Tarefa atrasada!</h2><p><strong>" ++ task.title ++
       "</strong></p><p>" ++ task.description ++
       "</p><p><strong>Prioridade:</strong> " ++ task.priority ++
       "</p><p><strong>Data de vencimento:</strong> " ++ dueStr ++ "</p>")

/-- Embeds `EmailService.SendNotification` (`email.go` lines 30-56): fail fast
with "email service not configured" when host, user or password is
empty — the from address, the port and the recipient are NOT checked —
otherwise build the MIME message and attempt delivery to
`user.Email` via `smtp.SendMail(host:port, auth, from, [user.Email], msg)`. -/
def EmailService.sendNotification (s : EmailService) (u : User) (task : Task)
    (ty : NotificationType) (dueStr : String) : EmailResult :=
  if s.host = "" ∨ s.user = "" ∨ s.password = "" then
    .configError "email service not configured"
  else
    let c := buildEmailContent task ty dueStr
    let msg := "To: " ++ u.email ++ "\r\n" ++ "Subject: " ++ c.1 ++ "\r\n" ++
      "MIME-Version: 1.0\r\n" ++ "Content-Type: text/html; charset=UTF-8\r\n" ++
      "\r\n" ++ c.2
    .attempt (s.host ++ ":" ++ s.port) s.fromAddr u.email msg

/-- Embeds `TelegramService` (`telegram.go`). -/
structure TelegramService where
  botToken : String
deriving DecidableEq, Repr

/-- Outcome of `TelegramService.SendNotification` up to the external
`http.Post` call: one of the two fail-fast configuration errors, or the
delivery attempt with the bot API URL, the chat id and the message text. -/
inductive TelegramResult where
  | configError (msg : String)
  | attempt (url chatID text : String)
deriving DecidableEq, Repr

/-- Whether a `TelegramResult` is a fail-fast configuration error. -/
def TelegramResult.isConfigError : TelegramResult → Bool
  | .configError _ => true
  | .attempt _ _ _ => false

/-- Embeds `TelegramService.buildMessage` (`telegram.go` lines 90-126): emoji
and headline per type, then title, description, priority and the
formatted due date (empty when the due date is nil). -/
def buildMessage (task : Task) (ty : NotificationType) (dueStr : String) :
    String :=
  let head :=
    match ty with
    | .due_soon => "⏰ <b>Tarefa vence amanhã!</b>"
    | .due_today => "📅 <b>Tarefa vence hoje!</b>"
    | .overdue => "⚠️ <b>Tarefa atrasada!</b>"
  head ++ "\n\n<b>" ++ task.title ++ "</b>\n" ++ task.description ++
    "\n\n<b>Prioridade:</b> " ++ task.priority ++
    "\n<b>Data de vencimento:</b> " ++ dueStr

/-- Embeds `TelegramService.SendNotification` (`telegram.go` lines 27-55): fail
fast when the bot token is empty, then when the chat id is empty;
otherwise build the message and post it to the bot API. -/
def TelegramService.sendNotification (s : TelegramService) (chatID : String)
    (task : Task) (ty : NotificationType) (dueStr : String) : TelegramResult :=
  if s.botToken = "" then .configError "telegram bot token not configured"
  else if chatID = "" then .configError "user telegram chat ID not configured"
  else
    .attempt ("https://api.telegram.org/bot" ++ s.botToken ++ "/sendMessage")
      chatID (buildMessage task ty dueStr)

/-- What `StartScheduler` (`scheduler.go`) does to the process: return
without starting, terminate the whole process (`log.Fatalf`), or start
the cron loop. -/
inductive SchedulerOutcome where
  | disabledOutcome
  | processExit (msg : String)
  | running (interval : String)
deriving DecidableEq, Repr

/-- Embeds `StartScheduler` (`scheduler.go` lines 11-35): when notifications are
disabled, return without ticking; register the job with the cron library
(`addJobErr` is the registration outcome of `c.AddFunc`, an external
collaborator) — on a registration error `log.Fatalf` TERMINATES the
process; otherwise start the cron loop. -/
def StartScheduler (notificationsEnabled : Bool) (interval : String)
    (addJobErr : Option String) : SchedulerOutcome :=
  if notificationsEnabled = false then .disabledOutcome
  else
    match addJobErr with
    | some e => .processExit e
    | none => .running interval

/-- Whether a scheduler outcome ends the process. -/
def terminatesProcess : SchedulerOutcome → Bool
  | .processExit _ => true
  | _ => false

/-! Helper lemmas about day truncation and the dispatch log. -/

theorem startOfDay_le_lt (t : Int) : startOfDay t ≤ t ∧ t < startOfDay t + 86400 := by
  unfold startOfDay dayOf
  have h : 86400 * Int.ediv t 86400 + Int.emod t 86400 = t := Int.ediv_add_emod t 86400
  have h1 : 0 ≤ Int.emod t 86400 := Int.emod_nonneg t (by norm_num)
  have h2 : Int.emod t 86400 < 86400 := Int.emod_lt_of_pos t (by norm_num)
  omega

theorem startOfDay_idem (t : Int) : startOfDay (startOfDay t) = startOfDay t := by
  unfold startOfDay dayOf
  have h : Int.ediv (Int.ediv t 86400 * 86400) 86400 = Int.ediv t 86400 :=
    Int.mul_ediv_cancel _ (by norm_num)
  rw [h]

theorem repoExists_append (db l : List Notification) (u t : Nat)
    (ty : NotificationType) (ch : NotificationChannel) (d : Int)
    (h : repoExists db u t ty ch d = true) :
    repoExists (db ++ l) u t ty ch d = true := by
  unfold repoExists at *
  rw [List.any_append, h, Bool.true_or]

theorem repoExists_last (db : List Notification) (u t : Nat)
    (ty : NotificationType) (ch : NotificationChannel) (d s : Int)
    (h1 : startOfDay d ≤ s) (h2 : s ≤ endOfDay d) :
    repoExists (db ++ [{ userID := u, taskID := t, type := ty, channel := ch,
                         sentAt := s }]) u t ty ch d = true := by
  unfold repoExists
  rw [List.any_append]
  simp [recordMatches, h1, h2]

theorem trySendChannel_extend (env : Env) (db : List Notification) (task : Task)
    (ty : NotificationType) (ch : NotificationChannel) (date : Int) (ok : Bool) :
    ∃ l, (trySendChannel env db task ty ch date ok).1 = db ++ l := by
  unfold trySendChannel
  split_ifs <;> first
    | exact ⟨[], (List.append_nil db).symm⟩
    | exact ⟨_, rfl⟩

theorem emailPhase_extend (env : Env) (db : List Notification) (task : Task)
    (ty : NotificationType) (date : Int) :
    ∃ l, emailPhase env db task ty date = db ++ l := by
  unfold emailPhase
  split_ifs
  · exact trySendChannel_extend env db task ty .email date (env.emailOk task.id ty)
  · exact ⟨[], (List.append_nil db).symm⟩

theorem telegramPhase_extend (env : Env) (db : List Notification) (task : Task)
    (ty : NotificationType) (date : Int) :
    ∃ l, telegramPhase env db task ty date = db ++ l := by
  unfold telegramPhase
  cases task.user.telegramChatID with
  | none => exact ⟨[], (List.append_nil db).symm⟩
  | some c =>
    dsimp only
    split_ifs
    · exact trySendChannel_extend env db task ty .telegram date (env.telegramOk task.id ty)
    · exact ⟨[], (List.append_nil db).symm⟩

theorem sendNotification_extend (env : Env) (db : List Notification) (task : Task)
    (ty : NotificationType) (date : Int) :
    ∃ l, sendNotification env db task ty date = db ++ l := by
  unfold sendNotification
  obtain ⟨l1, h1⟩ := emailPhase_extend env db task ty date
  obtain ⟨l2, h2⟩ := telegramPhase_extend env (emailPhase env db task ty date) task ty date
  exact ⟨l1 ++ l2, by rw [h2, h1, List.append_assoc]⟩

/-- Per-key soundness of the dispatch log after one run, the invariant
behind sequential idempotence: for a given task and category, every
channel that is enabled, whose sender would succeed and whose `Exists`
check is readable already has a matching record in the database. -/
def covered (env : Env) (db : List Notification) (task : Task)
    (ty : NotificationType) (date : Int) : Prop :=
  (task.user.email ≠ "" → env.existsErr task.userID task.id ty .email = false →
    env.emailOk task.id ty = true →
    repoExists db task.userID task.id ty .email date = true)
  ∧ (∀ c, task.user.telegramChatID = some c → c ≠ "" →
      env.existsErr task.userID task.id ty .telegram = false →
      env.telegramOk task.id ty = true →
      repoExists db task.userID task.id ty .telegram date = true)

theorem covered_append (env : Env) (db l : List Notification) (task : Task)
    (ty : NotificationType) (date : Int) (h : covered env db task ty date) :
    covered env (db ++ l) task ty date := by
  obtain ⟨h1, h2⟩ := h
  refine ⟨fun a b c => repoExists_append _ _ _ _ _ _ _ (h1 a b c),
          fun c hc hne he ho => repoExists_append _ _ _ _ _ _ _ (h2 c hc hne he ho)⟩

theorem trySendChannel_covers (env : Env) (db : List Notification) (task : Task)
    (ty : NotificationType) (ch : NotificationChannel) (date : Int)
    (hce : env.createErr task.userID task.id ty ch = false)
    (hd1 : startOfDay date ≤ env.now) (hd2 : env.now ≤ endOfDay date)
    (herr : env.existsErr task.userID task.id ty ch = false) :
    repoExists (trySendChannel env db task ty ch date true).1
      task.userID task.id ty ch date = true := by
  unfold trySendChannel
  by_cases hre : repoExists db task.userID task.id ty ch date = true
  · simp [herr, hre]
  · simp only [herr, hre, hce, Bool.false_eq_true, if_false, if_true]
    exact repoExists_last db task.userID task.id ty ch date env.now hd1 hd2

theorem covered_after_send (env : Env) (db : List Notification) (task : Task)
    (ty : NotificationType) (date : Int)
    (hc : ∀ u t ty2 ch, env.createErr u t ty2 ch = false)
    (hd1 : startOfDay date ≤ env.now) (hd2 : env.now ≤ endOfDay date) :
    covered env (sendNotification env db task ty date) task ty date := by
  unfold sendNotification
  constructor
  · intro hmail herr hok
    have h1 : repoExists (emailPhase env db task ty date)
        task.userID task.id ty .email date = true := by
      unfold emailPhase
      rw [if_pos hmail, hok]
      exact trySendChannel_covers env db task ty .email date
        (hc task.userID task.id ty .email) hd1 hd2 herr
    obtain ⟨l, hl⟩ := telegramPhase_extend env (emailPhase env db task ty date) task ty date
    rw [hl]
    exact repoExists_append _ _ _ _ _ _ _ h1
  · intro c htc hne herr hok
    unfold telegramPhase
    rw [htc]
    dsimp only
    rw [if_pos hne, hok]
    exact trySendChannel_covers env (emailPhase env db task ty date) task ty .telegram
      date (hc task.userID task.id ty .telegram) hd1 hd2 herr

theorem emailPhase_noop (env : Env) (db : List Notification) (task : Task)
    (ty : NotificationType) (date : Int)
    (h : task.user.email ≠ "" → env.existsErr task.userID task.id ty .email = false →
      env.emailOk task.id ty = true →
      repoExists db task.userID task.id ty .email date = true) :
    emailPhase env db task ty date = db := by
  unfold emailPhase
  split_ifs with hm
  · unfold trySendChannel
    cases herr : env.existsErr task.userID task.id ty .email
    · cases hre : repoExists db task.userID task.id ty .email date
      · cases hok : env.emailOk task.id ty
        · simp [herr, hre, hok]
        · rw [h hm herr hok] at hre
          cases hre
      · simp [herr, hre]
    · simp [herr]
  · rfl

theorem telegramPhase_noop (env : Env) (db : List Notification) (task : Task)
    (ty : NotificationType) (date : Int)
    (h : ∀ c, task.user.telegramChatID = some c → c ≠ "" →
      env.existsErr task.userID task.id ty .telegram = false →
      env.telegramOk task.id ty = true →
      repoExists db task.userID task.id ty .telegram date = true) :
    telegramPhase env db task ty date = db := by
  unfold telegramPhase
  cases htc : task.user.telegramChatID with
  | none => rfl
  | some c =>
    dsimp only
    split_ifs with hne
    · unfold trySendChannel
      cases herr : env.existsErr task.userID task.id ty .telegram
      · cases hre : repoExists db task.userID task.id ty .telegram date
        · cases hok : env.telegramOk task.id ty
          · simp [herr, hre, hok]
          · rw [h c htc hne herr hok] at hre
            cases hre
        · simp [herr, hre]
      · simp [herr]
    · rfl

theorem send_noop (env : Env) (db : List Notification) (task : Task)
    (ty : NotificationType) (date : Int) (h : covered env db task ty date) :
    sendNotification env db task ty date = db := by
  unfold sendNotification
  rw [emailPhase_noop env db task ty date h.1]
  exact telegramPhase_noop env db task ty date h.2

theorem processTask_db_eq (env : Env) (T : Int) (acc : RunResult) (task : Task)
    (due : Int) (tyv : NotificationType)
    (hdue : task.dueDate = some due) (hen : task.user.notificationsEnabled = true)
    (hcl : classify (dayOf due) (dayOf T) = some tyv) :
    (processTask env T acc task).db = sendNotification env acc.db task tyv T := by
  simp [processTask, hdue, hen, hcl]

theorem processTask_db_cases (env : Env) (T : Int) (acc : RunResult) (task : Task) :
    (processTask env T acc task).db = acc.db ∨
    ∃ due tyv, task.dueDate = some due ∧ task.user.notificationsEnabled = true ∧
      classify (dayOf due) (dayOf T) = some tyv ∧
      (processTask env T acc task).db = sendNotification env acc.db task tyv T := by
  cases hdue : task.dueDate with
  | none => left; simp [processTask, hdue]
  | some due =>
    cases hen : task.user.notificationsEnabled with
    | false => left; simp [processTask, hdue, hen]
    | true =>
      cases hcl : classify (dayOf due) (dayOf T) with
      | none => left; simp [processTask, hdue, hen, hcl]
      | some tyv =>
        right
        exact ⟨due, tyv, rfl, rfl, hcl, processTask_db_eq env T acc task due tyv hdue hen hcl⟩

theorem runTasks_extend (env : Env) (T : Int) :
    ∀ ts acc, ∃ l, (runTasks env T acc ts).db = acc.db ++ l := by
  intro ts
  induction ts with
  | nil => exact fun acc => ⟨[], (List.append_nil acc.db).symm⟩
  | cons t rest ih =>
    intro acc
    obtain ⟨l2, h2⟩ := ih (processTask env T acc t)
    rcases processTask_db_cases env T acc t with h1 | ⟨due, tyv, _, _, _, h1⟩
    · exact ⟨l2, by simp only [runTasks]; rw [h2, h1]⟩
    · obtain ⟨l1, hs⟩ := sendNotification_extend env acc.db t tyv T
      exact ⟨l1 ++ l2, by simp only [runTasks]; rw [h2, h1, hs, List.append_assoc]⟩

theorem runTasks_covers (env : Env) (T : Int)
    (hc : ∀ u t ty ch, env.createErr u t ty ch = false)
    (hd1 : startOfDay T ≤ env.now) (hd2 : env.now ≤ endOfDay T) :
    ∀ ts acc task, task ∈ ts →
      ∀ due tyv, task.dueDate = some due → task.user.notificationsEnabled = true →
        classify (dayOf due) (dayOf T) = some tyv →
        covered env (runTasks env T acc ts).db task tyv T := by
  intro ts
  induction ts with
  | nil => intro acc task h; cases h
  | cons t rest ih =>
    intro acc task hmem due tyv hdue hen hcl
    simp only [runTasks]
    rcases List.mem_cons.mp hmem with rfl | hmem2
    · obtain ⟨l, hl⟩ := runTasks_extend env T rest (processTask env T acc task)
      rw [hl, processTask_db_eq env T acc task due tyv hdue hen hcl]
      exact covered_append env _ l task tyv T
        (covered_after_send env acc.db task tyv T hc hd1 hd2)
    · exact ih (processTask env T acc t) task hmem2 due tyv hdue hen hcl

theorem processTask_db_noop (env : Env) (T : Int) (acc : RunResult) (task : Task)
    (h : ∀ due tyv, task.dueDate = some due →
      task.user.notificationsEnabled = true →
      classify (dayOf due) (dayOf T) = some tyv →
      covered env acc.db task tyv T) :
    (processTask env T acc task).db = acc.db := by
  rcases processTask_db_cases env T acc task with h1 | ⟨due, tyv, hdue, hen, hcl, h1⟩
  · exact h1
  · rw [h1]
    exact send_noop env acc.db task tyv T (h due tyv hdue hen hcl)

theorem runTasks_noop (env : Env) (T : Int) :
    ∀ ts acc,
      (∀ task ∈ ts, ∀ due tyv, task.dueDate = some due →
        task.user.notificationsEnabled = true →
        classify (dayOf due) (dayOf T) = some tyv →
        covered env acc.db task tyv T) →
      (runTasks env T acc ts).db = acc.db := by
  intro ts
  induction ts with
  | nil => intro acc _; rfl
  | cons t rest ih =>
    intro acc hP
    have hdb : (processTask env T acc t).db = acc.db :=
      processTask_db_noop env T acc t (hP t (List.mem_cons_self t rest))
    simp only [runTasks]
    rw [ih (processTask env T acc t) ?_, hdb]
    intro task hmem due tyv h1 h2 h3
    rw [hdb]
    exact hP task (List.mem_cons_of_mem t hmem) due tyv h1 h2 h3

theorem processTask_counters (env env' : Env) (T : Int) (acc acc' : RunResult)
    (task : Task)
    (hp : acc.processed = acc'.processed) (hs : acc.skipped = acc'.skipped)
    (hn : acc.notifications = acc'.notifications) :
    (processTask env T acc task).processed = (processTask env' T acc' task).processed ∧
    (processTask env T acc task).skipped = (processTask env' T acc' task).skipped ∧
    (processTask env T acc task).notifications =
      (processTask env' T acc' task).notifications := by
  cases hdue : task.dueDate with
  | none => simp [processTask, hdue, hp, hs, hn]
  | some due =>
    cases hen : task.user.notificationsEnabled with
    | false => simp [processTask, hdue, hen, hp, hs, hn]
    | true =>
      cases hcl : classify (dayOf due) (dayOf T) with
      | none => simp [processTask, hdue, hen, hcl, hp, hs, hn]
      | some tyv => simp [processTask, hdue, hen, hcl, hp, hs, hn]

theorem runTasks_counters (env env' : Env) (T : Int) :
    ∀ ts (acc acc' : RunResult),
      acc.processed = acc'.processed → acc.skipped = acc'.skipped →
      acc.notifications = acc'.notifications →
      (runTasks env T acc ts).processed = (runTasks env' T acc' ts).processed ∧
      (runTasks env T acc ts).skipped = (runTasks env' T acc' ts).skipped ∧
      (runTasks env T acc ts).notifications = (runTasks env' T acc' ts).notifications := by
  intro ts
  induction ts with
  | nil => exact fun acc acc' hp hs hn => ⟨hp, hs, hn⟩
  | cons t rest ih =>
    intro acc acc' hp hs hn
    obtain ⟨hp', hs', hn'⟩ := processTask_counters env env' T acc acc' t hp hs hn
    exact ih (processTask env T acc t) (processTask env' T acc' t) hp' hs' hn'

/-! Claims. -/

/-- Claim C1: for every due date and reference date (day numbers, i.e.
date-only precision), the classification is `Overdue` iff the due date is
strictly before the reference date, `DueToday` iff it equals it, `DueSoon`
iff it equals the reference date plus one day, and no category otherwise;
since `classify` is a function and these four cases are characterized by
mutually exclusive arithmetic conditions, every task falls in at most one
category per run. -/
theorem classify_cases (due ref : Int) :
    (classify due ref = some .overdue ↔ due < ref)
  ∧ (classify due ref = some .due_today ↔ due = ref)
  ∧ (classify due ref = some .due_soon ↔ due = ref + 1)
  ∧ (classify due ref = none ↔ ref + 1 < due) := by
  unfold classify
  split_ifs with h1 h2 h3 <;> simp_all <;> omega

/-- Claim C3 (theorem): within one channel branch, a dispatch record is
appended exactly when the sender reported success: a failed send never
changes the database; a successful send with a readable dispatch log, no
prior record and a working `Create` appends exactly one record; a `Create`
error after a successful send leaves the send reported as a success (no
rollback) with no record; and an email-side `Create` error does not abort
the telegram channel, which still sends and records. -/
theorem record_created_iff_send_success (env : Env) (db : List Notification)
    (task : Task) (ty : NotificationType) (ch : NotificationChannel) (date : Int) :
    ((trySendChannel env db task ty ch date false).1 = db)
  ∧ (env.existsErr task.userID task.id ty ch = false →
      repoExists db task.userID task.id ty ch date = false →
      env.createErr task.userID task.id ty ch = false →
      trySendChannel env db task ty ch date true =
        (db ++ [{ userID := task.userID, taskID := task.id, type := ty,
                  channel := ch, sentAt := env.now }], true))
  ∧ (env.existsErr task.userID task.id ty ch = false →
      repoExists db task.userID task.id ty ch date = false →
      env.createErr task.userID task.id ty ch = true →
      trySendChannel env db task ty ch date true = (db, true))
  ∧ (task.user.email ≠ "" → env.emailOk task.id ty = true →
      env.existsErr task.userID task.id ty .email = false →
      repoExists db task.userID task.id ty .email date = false →
      env.createErr task.userID task.id ty .email = true →
      ∀ c, task.user.telegramChatID = some c → c ≠ "" →
        env.telegramOk task.id ty = true →
        env.existsErr task.userID task.id ty .telegram = false →
        repoExists db task.userID task.id ty .telegram date = false →
        env.createErr task.userID task.id ty .telegram = false →
        sendNotification env db task ty date =
          db ++ [{ userID := task.userID, taskID := task.id, type := ty,
                   channel := .telegram, sentAt := env.now }]) := by
  refine ⟨?_, ?_, ?_, ?_⟩
  · unfold trySendChannel
    split_ifs <;> simp_all
  · intro he hr hcr
    simp [trySendChannel, he, hr, hcr]
  · intro he hr hcr
    simp [trySendChannel, he, hr, hcr]
  · intro hm hok he1 hr1 hc1 c htc hne hok2 he2 hr2 hc2
    unfold sendNotification
    have hemail : emailPhase env db task ty date = db := by
      unfold emailPhase
      rw [if_pos hm, hok]
      simp [trySendChannel, he1, hr1, hc1]
    rw [hemail]
    unfold telegramPhase
    rw [htc]
    dsimp only
    rw [if_pos hne, hok2]
    simp [trySendChannel, he2, hr2, hc2]

/-- Witness for C3: a concrete environment where the email `Create` fails
after a successful email send, and the telegram channel nevertheless
sends and records. -/
def userW3 : User := ⟨2, "b@x.com", some "chat2", true⟩

/-- Task of the C3 witness. -/
def taskW3 : Task := ⟨11, "t3", "", "alta", some 0, false, 2, userW3⟩

/-- Environment of the C3 witness: `Create` fails on the email channel
only. -/
def envW3 : Env :=
  ⟨fun _ _ _ _ => false,
   fun _ _ _ ch => match ch with | .email => true | .telegram => false,
   fun _ _ => true, fun _ _ => true, 3600, false⟩

/-- Closed instance of C3 at the concrete witness input. -/
theorem record_created_witness :
    sendNotification envW3 [] taskW3 .overdue 0 =
      [] ++ [{ userID := taskW3.userID, taskID := taskW3.id, type := .overdue,
               channel := .telegram, sentAt := envW3.now }] :=
  (record_created_iff_send_success envW3 [] taskW3 .overdue .email 0).2.2.2
    (by decide) rfl rfl rfl rfl "chat2" rfl (by decide) rfl rfl rfl rfl

/-- Claim C4: if the dispatch-log existence check reports a persistence
error for a key, the engine neither sends on that channel nor creates a
record for that key in this run — the result is the unchanged database
and no success, whatever the sender would have answered. -/
theorem exists_error_aborts_channel (env : Env) (db : List Notification)
    (task : Task) (ty : NotificationType) (ch : NotificationChannel) (date : Int)
    (ok : Bool) (h : env.existsErr task.userID task.id ty ch = true) :
    trySendChannel env db task ty ch date ok = (db, false) := by
  simp [trySendChannel, h]

/-- User of the C4 witness. -/
def userW4 : User := ⟨5, "c@x.com", none, true⟩

/-- Task of the C4 witness. -/
def taskW4 : Task := ⟨12, "t4", "", "baixa", some 0, false, 5, userW4⟩

/-- Environment of the C4 witness: every `Exists` check fails. -/
def envW4 : Env :=
  ⟨fun _ _ _ _ => true, fun _ _ _ _ => false,
   fun _ _ => true, fun _ _ => true, 0, false⟩

/-- Closed instance of C4 at the concrete witness input. -/
theorem exists_error_witness :
    trySendChannel envW4 [] taskW4 .overdue .email 0 true = ([], false) :=
  exists_error_aborts_channel envW4 [] taskW4 .overdue .email 0 true rfl

/-- Claim C5: a completed task, or one with no due date, is invisible to
the run — the cycle computes the same result with or without it (it is
excluded by the load query's filter); and a task whose owner has
notifications disabled is only counted as skipped: its loop step performs
no classification, no dispatch, and leaves the database and the other
counters untouched. -/
theorem ineligible_never_dispatched (env : Env) (t : Task) :
    ((t.completed = true ∨ t.dueDate = none) →
      ∀ tasks1 tasks2 db,
        checkAndSend env (tasks1 ++ t :: tasks2) db =
        checkAndSend env (tasks1 ++ tasks2) db)
  ∧ (t.user.notificationsEnabled = false →
      ∀ due, t.dueDate = some due →
      ∀ todayTime acc, processTask env todayTime acc t =
        { acc with skipped := acc.skipped + 1 }) := by
  constructor
  · intro h tasks1 tasks2 db
    have hfilter : (!t.completed && t.dueDate.isSome) = false := by
      rcases h with h | h <;> simp [h]
    unfold checkAndSend
    rw [List.filter_append, List.filter_append, List.filter_cons, hfilter]
    simp
  · intro hen due hdue todayTime acc
    simp [processTask, hdue, hen]

/-- User of the C5 witness. -/
def userW5 : User := ⟨6, "d@x.com", none, true⟩

/-- Task of the C5 witness: completed, hence never eligible. -/
def taskW5 : Task := ⟨13, "t5", "", "media", some 0, true, 6, userW5⟩

/-- Environment of the C5 witness. -/
def envW5 : Env :=
  ⟨fun _ _ _ _ => false, fun _ _ _ _ => false,
   fun _ _ => true, fun _ _ => true, 0, false⟩

/-- Closed instance of C5 at the concrete witness input. -/
theorem ineligible_witness :
    checkAndSend envW5 ([] ++ taskW5 :: []) [] = checkAndSend envW5 ([] ++ []) [] :=
  (ineligible_never_dispatched envW5 taskW5).1 (Or.inl rfl) [] [] []

/-- Record of the C6 counterexample: sent exactly at the next midnight
after day 0. -/
def recC6 : Notification := ⟨1, 10, .due_today, .email, 86400⟩

/-- Counterexample to C6 as stated: the repository's `Exists` uses SQL
`BETWEEN`, inclusive at both ends, so a record stamped exactly at the
NEXT midnight (86400 = endOfDay 0) is reported as sent for day 0, while
the claim's half-open day interval excludes it. -/
theorem exists_counts_next_midnight :
    recC6.sentAt = endOfDay 0
  ∧ repoExists [recC6] 1 10 .due_today .email 0 = true
  ∧ wasSentSpec [recC6] 1 10 .due_today .email 0 = false := by
  refine ⟨rfl, by decide, by decide⟩

/-- Claim C6 (amended): the existence check returns true iff a record
with exactly that key exists whose timestamp lies in the CLOSED interval
from the day's midnight to the next midnight inclusive (both endpoints
included, `BETWEEN` semantics), day boundaries computed on the
server-local timeline. -/
theorem exists_iff_closed_interval (db : List Notification) (u t : Nat)
    (ty : NotificationType) (ch : NotificationChannel) (date : Int) :
    repoExists db u t ty ch date = true ↔
      ∃ r ∈ db, r.userID = u ∧ r.taskID = t ∧ r.type = ty ∧ r.channel = ch ∧
        startOfDay date ≤ r.sentAt ∧ r.sentAt ≤ endOfDay date := by
  simp [repoExists, recordMatches, List.any_eq_true, Bool.and_eq_true,
    decide_eq_true_eq, and_assoc]

/-- Counterexample to C8 as stated: a scheduler-setup error (the cron
library rejecting the cadence expression) reaches `log.Fatalf`, which
terminates the process — so not every error in the subsystem is
contained. -/
theorem scheduler_setup_error_exits :
    terminatesProcess (StartScheduler true "bad spec" (some "failed to schedule")) =
      true := rfl

/-- Claim C8 (amended): the scheduler terminates the process exactly when
notifications are enabled and cron-job registration fails; every other
error is contained — in particular a notification cycle never crashes,
the only failure it can surface is the data-load error returned as a
value. -/
theorem process_exit_characterization (en : Bool) (iv : String) (r : Option String) :
    (terminatesProcess (StartScheduler en iv r) = true ↔ en = true ∧ ∃ e, r = some e)
  ∧ (∀ (env : Env) (tasks : List Task) (db : List Notification),
      checkAndSend env tasks db = Except.error () ↔ env.fetchErr = true) := by
  constructor
  · cases en <;> cases r <;> simp [StartScheduler, terminatesProcess]
  · intro env tasks db
    unfold checkAndSend
    by_cases hf : env.fetchErr = true <;> simp [hf]

/-- Email service of the C9 counterexample: fully configured. -/
def emailSvcC9 : EmailService := ⟨"smtp.example.com", "587", "mailer", "secret", "noreply@x"⟩

/-- User of the C9 counterexample: empty email address. -/
def userC9 : User := ⟨3, "", none, true⟩

/-- Task of the C9 counterexample. -/
def taskC9 : Task := ⟨7, "x", "", "media", some 0, false, 3, userC9⟩

/-- Counterexample to C9 as stated: the EMAIL sender called with an empty
destination does not fail fast — with host, user and password configured
it proceeds to attempt delivery to the empty recipient. -/
theorem email_empty_destination_attempts :
    userC9.email = ""
  ∧ (emailSvcC9.sendNotification userC9 taskC9 .due_today "01/01/1970").isConfigError
      = false
  ∧ (emailSvcC9.sendNotification userC9 taskC9 .due_today "01/01/1970").destOf
      = some "" := by
  refine ⟨rfl, rfl, rfl⟩

/-- Claim C9 (amended): only the chat sender fails fast on an empty
destination (with a configuration error, before any delivery attempt);
the email sender performs no destination check and, when its credentials
are configured, attempts delivery to the empty recipient. -/
theorem senders_empty_destination (svc : TelegramService) (task : Task)
    (ty : NotificationType) (ds : String) (es : EmailService) (u : User)
    (hh : es.host ≠ "") (hu : es.user ≠ "") (hp : es.password ≠ "")
    (he : u.email = "") :
    (svc.sendNotification "" task ty ds).isConfigError = true
  ∧ (es.sendNotification u task ty ds).isConfigError = false
  ∧ (es.sendNotification u task ty ds).destOf = some "" := by
  refine ⟨?_, ?_, ?_⟩
  · unfold TelegramService.sendNotification
    split_ifs with h1 h2
    · rfl
    · rfl
    · exact absurd rfl h2
  · simp [EmailService.sendNotification, hh, hu, hp, EmailResult.isConfigError]
  · simp [EmailService.sendNotification, hh, hu, hp, he, EmailResult.destOf]

/-- Closed instance of amended C9 at the concrete witness input. -/
theorem senders_empty_destination_witness :
    ((⟨"tok"⟩ : TelegramService).sendNotification "" taskC9 .due_today "d").isConfigError
      = true
  ∧ (emailSvcC9.sendNotification userC9 taskC9 .due_today "d").isConfigError = false
  ∧ (emailSvcC9.sendNotification userC9 taskC9 .due_today "d").destOf = some "" :=
  senders_empty_destination ⟨"tok"⟩ taskC9 .due_today "d" emailSvcC9 userC9
    (by decide) (by decide) (by decide) rfl

/-- Claim C10: the email sender reports "email service not configured"
exactly when the SMTP host, user or password is empty; the from address
and the port are not part of the check, so with host, user and password
set and an empty from address the sender attempts delivery with the
empty from address. -/
theorem email_not_configured_characterization (es : EmailService) (u : User)
    (task : Task) (ty : NotificationType) (ds : String) :
    ((es.sendNotification u task ty ds).isConfigError = true ↔
      es.host = "" ∨ es.user = "" ∨ es.password = "")
  ∧ (es.host ≠ "" → es.user ≠ "" → es.password ≠ "" → es.fromAddr = "" →
      (es.sendNotification u task ty ds).fromOf = some "") := by
  constructor
  · unfold EmailService.sendNotification
    split_ifs with h
    · simp [EmailResult.isConfigError, h]
    · simp [EmailResult.isConfigError, h]
  · intro hh hu hp hf
    simp [EmailService.sendNotification, hh, hu, hp, hf, EmailResult.fromOf]

/-- Email service of the C10 witness: credentials set, empty from
address. -/
def emailSvcC10 : EmailService := ⟨"h", "25", "u", "p", ""⟩

/-- User of the C10 witness. -/
def userC10 : User := ⟨4, "b@x.com", none, true⟩

/-- Task of the C10 witness. -/
def taskC10 : Task := ⟨8, "y", "", "alta", some 0, false, 4, userC10⟩

/-- Closed instance of C10 at the concrete witness input. -/
theorem email_not_configured_witness :
    (emailSvcC10.sendNotification userC10 taskC10 .overdue "d").fromOf = some "" :=
  (email_not_configured_characterization emailSvcC10 userC10 taskC10 .overdue "d").2
    (by decide) (by decide) (by decide) rfl

/-- Claim C2: sequential idempotence. When the record writes of the first
run are readable (`Create` does not fail — the carve-out the claim itself
makes for persistence errors on `RecordSent`), running the cycle twice in
the same environment (same reference time, same oracle outcomes, no
intervening state change) adds nothing on the second run: each record
created by the first run makes the existence check return true, the
engine skips that key, and the second run's database equals the first
run's. -/
theorem run_twice_no_additional_sends (env : Env) (tasks : List Task)
    (db : List Notification) (r1 r2 : RunResult)
    (hc : ∀ u t ty ch, env.createErr u t ty ch = false)
    (h1 : checkAndSend env tasks db = Except.ok r1)
    (h2 : checkAndSend env tasks r1.db = Except.ok r2) :
    r2.db = r1.db := by
  unfold checkAndSend at h1 h2
  by_cases hf : env.fetchErr = true
  · rw [if_pos hf] at h1
    cases h1
  · rw [if_neg hf] at h1 h2
    simp only [Except.ok.injEq] at h1 h2
    have hd1 : startOfDay (startOfDay env.now) ≤ env.now := by
      rw [startOfDay_idem]
      exact (startOfDay_le_lt env.now).1
    have hd2 : env.now ≤ endOfDay (startOfDay env.now) := by
      unfold endOfDay
      rw [startOfDay_idem]
      exact le_of_lt (startOfDay_le_lt env.now).2
    rw [← h2]
    apply runTasks_noop
    intro task hmem due tyv hdue hen hcl
    have hcov := runTasks_covers env (startOfDay env.now) hc hd1 hd2
      (tasks.filter fun t => !t.completed && t.dueDate.isSome)
      { db := db, processed := 0, skipped := 0, notifications := 0 }
      task hmem due tyv hdue hen hcl
    rw [h1] at hcov
    exact hcov

/-- User of the C2 witness. -/
def userW2 : User := ⟨1, "a@x.com", none, true⟩

/-- Task of the C2 witness: due on day 5 of the timeline. -/
def taskW2 : Task := ⟨10, "t", "", "media", some 432100, false, 1, userW2⟩

/-- Environment of the C2 witness: no persistence errors, both senders
succeed, the clock is one hour into day 5. -/
def envW2 : Env :=
  ⟨fun _ _ _ _ => false, fun _ _ _ _ => false,
   fun _ _ => true, fun _ _ => true, 435600, false⟩

/-- Record the first C2-witness run creates. -/
def recW2 : Notification := ⟨1, 10, .due_today, .email, 435600⟩

/-- Result of both C2-witness runs. -/
def r1W2 : RunResult := ⟨[recW2], 1, 0, 1⟩

/-- Closed instance of C2 at the concrete witness input: both runs
produce the same database. -/
theorem run_twice_witness : r1W2.db = r1W2.db :=
  run_twice_no_additional_sends envW2 [taskW2] [] r1W2 r1W2
    (fun _ _ _ _ => rfl) rfl rfl

/-- User of the C7 counterexample. -/
def userC7 : User := ⟨1, "a@x.com", none, true⟩

/-- Task of the C7 counterexample: due on day 5. -/
def taskC7 : Task := ⟨10, "t", "", "media", some 432000, false, 1, userC7⟩

/-- Environment of the C7 counterexample: the email send FAILS. -/
def envC7 : Env :=
  ⟨fun _ _ _ _ => false, fun _ _ _ _ => false,
   fun _ _ => false, fun _ _ => false, 435600, false⟩

/-- Environment identical to the C7 counterexample's but with a
succeeding email sender. -/
def envC7ok : Env := { envC7 with emailOk := fun _ _ => true }

/-- Counterexample to C7 as stated: the run's only notification counter
(`notificationCount`, logged as "notifications sent") is 1 although zero
sends succeeded and zero records were created — the counter counts
classified tasks, not per-channel outcomes, and the Go function returns
only `error`, not a `CycleReport` with succeeded/failed counts. -/
theorem cycle_counts_not_outcomes :
    (checkAndSend envC7 [taskC7] []).toOption.map RunResult.notifications = some 1
  ∧ (checkAndSend envC7 [taskC7] []).toOption.map (fun r => r.db.length) = some 0 := by
  refine ⟨rfl, rfl⟩

/-- Claim C7 (amended): a run aggregates and logs tasks processed, tasks
skipped and tasks classified for notification, and returns only
success/error; the classified-task counter is independent of every send
outcome and every persistence outcome — two runs in environments that
agree on the clock and the load outcome log identical counters whatever
their senders and dispatch log did. -/
theorem counters_independent_of_outcomes (env env' : Env) (tasks : List Task)
    (db db' : List Notification) (r r' : RunResult)
    (hnow : env.now = env'.now) (hf : env.fetchErr = env'.fetchErr)
    (h : checkAndSend env tasks db = Except.ok r)
    (h' : checkAndSend env' tasks db' = Except.ok r') :
    r.processed = r'.processed ∧ r.skipped = r'.skipped ∧
    r.notifications = r'.notifications := by
  unfold checkAndSend at h h'
  by_cases hfe : env.fetchErr = true
  · rw [if_pos hfe] at h
    cases h
  · rw [if_neg hfe] at h
    rw [hf] at hfe
    rw [if_neg hfe] at h'
    simp only [Except.ok.injEq] at h h'
    rw [← h, ← h', hnow]
    exact runTasks_counters env env' (startOfDay env'.now) _ _ _ rfl rfl rfl

/-- Record created by the succeeding C7 comparison run. -/
def recC7 : Notification := ⟨1, 10, .due_today, .email, 435600⟩

/-- Closed instance of amended C7 at the concrete witness inputs: the
failing-sender run and the succeeding-sender run log identical counters. -/
theorem counters_independent_witness :
    (⟨[], 1, 0, 1⟩ : RunResult).processed = (⟨[recC7], 1, 0, 1⟩ : RunResult).processed
  ∧ (⟨[], 1, 0, 1⟩ : RunResult).skipped = (⟨[recC7], 1, 0, 1⟩ : RunResult).skipped
  ∧ (⟨[], 1, 0, 1⟩ : RunResult).notifications
      = (⟨[recC7], 1, 0, 1⟩ : RunResult).notifications :=
  counters_independent_of_outcomes envC7 envC7ok [taskC7] [] []
    ⟨[], 1, 0, 1⟩ ⟨[recC7], 1, 0, 1⟩ rfl rfl rfl rfl

end Todo
